import Mathlib

/-!
Verification of the comparable-sales adjustment engine
(`src/utils/adjustment_modeling/adjustmentv1`).

Shallow embedding conventions:
* Python floats are `PFloat`: `nan`, an exact rational `val q`, or a signed
  infinity (reachable through the pandas division inside the GLA market
  rate).  Arithmetic propagates `nan` and follows IEEE sign rules for the
  infinities; Python's two-argument `min`/`max` builtins (which are
  position-dependent on `nan`) are modelled by `pymin`/`pymax`.
* Python strings are `List Char` (`Str`); `str.lower()` is modelled for the
  ASCII range, which covers every keyword table in the source.
* A possibly-missing numeric field is `PNum`: `pnone` models Python `None`
  (key absent / null), `nan` models a float NaN (the loader's `_num` yields
  NaN for missing or unparseable values), `num q` a finite value.
* Possibly-missing text fields are `Option Str`; missing list fields are `[]`.
* Dates are parsed from ISO `YYYY-MM-DD` / `YYYY-MM` text, the format the
  repository's data contains; any other text counts as unparseable, which the
  source maps to a zero month difference.
* The per-rule explanation dictionaries returned by every rule are not
  modelled: every claim is about the numeric adjustment component.
-/

abbrev Str := List Char

def lowerChar (c : Char) : Char :=
  if 'A' ≤ c ∧ c ≤ 'Z' then Char.ofNat (c.toNat + 32) else c

def lowerS (s : Str) : Str := s.map lowerChar

def isSpaceC (c : Char) : Bool :=
  c = ' ' ∨ c = '\t' ∨ c = '\n' ∨ c = '\r'

/-- Python `str.strip()`: drop whitespace from both ends. -/
def pytrim (s : Str) : Str :=
  ((s.dropWhile isSpaceC).reverse.dropWhile isSpaceC).reverse

/-- Does the needle occur at the start of the haystack? -/
def tokStarts : Str → Str → Bool
  | [], _ => true
  | _ :: _, [] => false
  | a :: as, b :: bs => a = b && tokStarts as bs

/-- Python `needle in hay` substring test. -/
def containsTok (nd : Str) : Str → Bool
  | [] => nd.isEmpty
  | c :: t => tokStarts nd (c :: t) || containsTok nd t

/-- Split a character list on `'-'`, the separator of ISO dates. -/
def splitDash : Str → List Str
  | [] => [[]]
  | c :: t =>
    match splitDash t with
    | [] => [[]]
    | h :: r => if c = '-' then [] :: h :: r else (c :: h) :: r

def isDigitC (c : Char) : Bool := decide ('0' ≤ c) && decide (c ≤ '9')

def parseNatL (l : Str) : Option Nat :=
  if l ≠ [] ∧ l.all isDigitC then
    some (l.foldl (fun a c => 10 * a + (c.toNat - 48)) 0)
  else none

/-- Year and month of an ISO date text, `none` when unparseable (the model of
`pd.to_datetime` raising for the date formats this repository feeds it). -/
def parseDate (s : Str) : Option (Nat × Nat) :=
  match splitDash (pytrim s) with
  | [y, m, d] =>
    match parseNatL y, parseNatL m, parseNatL d with
    | some yn, some mn, some dn =>
      if 1 ≤ mn ∧ mn ≤ 12 ∧ 1 ≤ dn ∧ dn ≤ 31 then some (yn, mn) else none
    | _, _, _ => none
  | [y, m] =>
    match parseNatL y, parseNatL m with
    | some yn, some mn =>
      if 1 ≤ mn ∧ mn ≤ 12 then some (yn, mn) else none
    | _, _ => none
  | _ => none

/-- A Python float: NaN, an exact finite value, or a signed infinity (the
result of pandas division by zero, which the GLA market rate can produce). -/
inductive PFloat where
  | nan
  | val (q : ℚ)
  | pinf
  | ninf
deriving DecidableEq

def PFloat.add : PFloat → PFloat → PFloat
  | .val a, .val b => .val (a + b)
  | .nan, _ => .nan
  | _, .nan => .nan
  | .pinf, .ninf => .nan
  | .ninf, .pinf => .nan
  | .pinf, _ => .pinf
  | _, .pinf => .pinf
  | .ninf, _ => .ninf
  | _, .ninf => .ninf

def PFloat.mul : PFloat → PFloat → PFloat
  | .val a, .val b => .val (a * b)
  | .nan, _ => .nan
  | _, .nan => .nan
  | .pinf, .pinf => .pinf
  | .pinf, .ninf => .ninf
  | .ninf, .pinf => .ninf
  | .ninf, .ninf => .pinf
  | .val a, .pinf => if 0 < a then .pinf else if a < 0 then .ninf else .nan
  | .pinf, .val a => if 0 < a then .pinf else if a < 0 then .ninf else .nan
  | .val a, .ninf => if 0 < a then .ninf else if a < 0 then .pinf else .nan
  | .ninf, .val a => if 0 < a then .ninf else if a < 0 then .pinf else .nan

def PFloat.neg : PFloat → PFloat
  | .val a => .val (-a)
  | .nan => .nan
  | .pinf => .ninf
  | .ninf => .pinf

/-- Halving, as the even-count median's mean of the two middle values. -/
def PFloat.half : PFloat → PFloat
  | .val q => .val (q / 2)
  | .nan => .nan
  | .pinf => .pinf
  | .ninf => .ninf

def PFloat.isNan : PFloat → Bool
  | .nan => true
  | _ => false

/-- Python `<` on floats: every comparison with NaN is false, and the
infinities compare below/above every finite value. -/
def PFloat.ltb : PFloat → PFloat → Bool
  | .val a, .val b => decide (a < b)
  | .ninf, .val _ => true
  | .ninf, .pinf => true
  | .val _, .pinf => true
  | _, _ => false

/-- Ascending sort order for non-NaN floats (numpy sort semantics). -/
def pfLeb : PFloat → PFloat → Bool
  | .val a, .val b => decide (a ≤ b)
  | .ninf, _ => true
  | _, .pinf => true
  | _, _ => false

/-- Python `min(a, b)`: returns `b` only when `b < a`, so `min(x, nan) = x`
and `min(nan, x) = nan`. -/
def pymin (a b : PFloat) : PFloat := if PFloat.ltb b a then b else a

/-- Python `max(a, b)`: returns `b` only when `a < b`, so `max(x, nan) = x`
and `max(nan, x) = nan`. -/
def pymax (a b : PFloat) : PFloat := if PFloat.ltb a b then b else a

/-- A possibly-missing numeric field: Python `None`, float NaN, or a value. -/
inductive PNum where
  | pnone
  | nan
  | num (q : ℚ)
deriving DecidableEq

/-- `utils.num`: total numeric coercion — `None` and NaN become NaN. -/
def num : PNum → PFloat
  | .pnone => .nan
  | .nan => .nan
  | .num q => .val q

/-- `utils.txt`: `str(x)` when not `None`, stripped. -/
def txt : Option Str → Str
  | none => []
  | some s => pytrim s

/-- Python `x or ''` on an optional string field. -/
def orEmptyS : Option Str → Str
  | none => []
  | some s => s

/-- `utils.months_between`: month difference `d1 − d2` clamped to ±120,
zero when either date is absent, empty, or unparseable. -/
def months_between (d1 d2 : Option Str) : ℚ :=
  match d1, d2 with
  | some s1, some s2 =>
    if s1 = [] ∨ s2 = [] then 0
    else
      match parseDate s1, parseDate s2 with
      | some a, some b =>
        max (-120) (min 120 ((((a.1 : ℤ) - b.1) * 12 + ((a.2 : ℤ) - b.2) : ℤ) : ℚ))
      | _, _ => 0
  | _, _ => 0

def POS_SITE_TOKENS : List Str :=
  ["cul-de-sac".data, "park".data, "view".data, "greenbelt".data,
   "waterfront".data, "backs to open".data]

def NEG_SITE_TOKENS : List Str :=
  ["busy road".data, "highway".data, "arterial".data, "rail".data,
   "industrial".data, "power line".data, "slope".data, "steep".data]

/-- `utils.site_token_score`: +1 per positive token, −1 per negative token
contained in the lowercased text. -/
def site_token_score (s : Str) : ℚ :=
  let t := lowerS (pytrim s)
  ((POS_SITE_TOKENS.filter (fun tok => containsTok tok t)).length : ℚ) -
    ((NEG_SITE_TOKENS.filter (fun tok => containsTok tok t)).length : ℚ)

/-- `policy.CostAssumptions` with the source's defaults. -/
structure CostAssumptions where
  lot_psf : ℚ := 3.0
  fence_token : ℚ := 1500.0
  site_pos_pct : ℚ := 0.01
  site_neg_pct : ℚ := -0.02
  age_per_year : ℚ := 600.0
  style_token : ℚ := 1500.0
  construction_token : ℚ := 1200.0
  foundation_token : ℚ := 1000.0
  roof_token : ℚ := 1000.0
  gla_factor_psf : ℚ := 0.35
  above_grade_psf : ℚ := 40.0
  below_grade_finished_psf : ℚ := 50.0
  below_grade_unfinished_psf : ℚ := 15.0
  v_bed : ℚ := 9000.0
  v_bath_full : ℚ := 12000.0
  v_bath_half : ℚ := 6000.0
  v_story : ℚ := 3000.0
  quality_pct_per_step : ℚ := 0.04
  condition_pct_per_step : ℚ := 0.025
  interior_token : ℚ := 1000.0
  fireplace_each : ℚ := 6000.0
  hvac_central_bonus : ℚ := 2000.0
  whole_house_fan_bonus : ℚ := 800.0
  multi_unit_cooling_bonus : ℚ := 1200.0
  solar_contrib : ℚ := 10000.0
  natural_gas_bonus : ℚ := 1500.0
  pv_on_grid_bonus : ℚ := 2000.0
  garage_space_value : ℚ := 25000.0
  patio_pkg : ℚ := 4000.0
  deck_pkg : ℚ := 5000.0
  porch_pkg : ℚ := 3000.0
  monthly_market_trend_pct : ℚ := 0.0025
  hoa_years_capitalized : ℚ := 1.0
  different_neighborhood_pct : ℚ := -0.01
  different_subdivision_pct : ℚ := -0.005
  different_school_district_pct : ℚ := -0.005
  school_rating_pct_per_point : ℚ := 0.002
  waterfront_pct : ℚ := 0.03
  building_share : ℚ := 0.60
deriving DecidableEq

/-- `policy.AdjustmentPolicy` with the source's defaults. -/
structure AdjustmentPolicy where
  line_cap_pct : ℚ := 0.09
  total_cap_pct : ℚ := 0.27
  market_each_cap : ℚ := 0.03
  market_total_cap : ℚ := 0.05
deriving DecidableEq

def defaultCosts : CostAssumptions := {}

def defaultPolicy : AdjustmentPolicy := {}

/-- A canonical property record (subject or comparable).  Every field the
engine's rules read; a missing field is `pnone` / `none` / `[]` / `false`. -/
structure Record where
  address : Option Str := none
  sale_price : PNum := .pnone
  sale_date : Option Str := none
  hoa_fee : PNum := .pnone
  neighborhood : Option Str := none
  subdivision : Option Str := none
  school_district : Option Str := none
  avg_school_rating : PNum := .pnone
  waterfront : Option Str := none
  lot_sqft : PNum := .pnone
  fencing : Option Str := none
  lot_features_text : Option Str := none
  year_built : PNum := .pnone
  style : Option Str := none
  construction_materials : Option Str := none
  foundation_details : Option Str := none
  roof : Option Str := none
  gla : PNum := .pnone
  above_grade_size : PNum := .pnone
  below_grade_size : PNum := .pnone
  beds : PNum := .pnone
  baths : PNum := .pnone
  stories : PNum := .pnone
  property_condition_label : Option Str := none
  flooring : Option Str := none
  interior_features : List Str := []
  parking_desc : Option Str := none
  cooling : Option Str := none
  natural_gas_connected : Bool := false
  solar : Bool := false
  electric_pv_on_grid : Bool := false
  garage_spaces : PNum := .pnone

/-- Python `comp.get('sale_price') or 0.0`: `None` gives `0.0`, a NaN price is
truthy and survives. -/
def priceOr0 (r : Record) : PFloat :=
  match r.sale_price with
  | .pnone => .val 0
  | .nan => .nan
  | .num q => .val q

/-- `transactional.sale_date`: months between subject and comp sale dates
times the negated monthly trend rate, times the comp's sale price.  The
`indicated_value` parameter is accepted and ignored, as in the source. -/
def sale_date (subject comp : Record) (costs : CostAssumptions)
    (_indicated_value : PFloat) : PFloat :=
  let m := months_between subject.sale_date comp.sale_date
  let pct := -m * costs.monthly_market_trend_pct
  (priceOr0 comp).mul (.val pct)

/-- `transactional.hoa_fee`: fee difference capitalized over
`12 × hoa_years_capitalized` months; zero when either fee is missing. -/
def hoa_fee (subject comp : Record) (costs : CostAssumptions) : PFloat :=
  match num subject.hoa_fee, num comp.hoa_fee with
  | .val s, .val c => .val ((s - c) * (12.0 * costs.hoa_years_capitalized))
  | _, _ => .val 0

/-- Neighborhood mismatch contribution (case-sensitive text comparison with
`None` coerced to the empty string, as in the source). -/
def neighborhood_pct (subject comp : Record) (costs : CostAssumptions) : ℚ :=
  if orEmptyS subject.neighborhood ≠ orEmptyS comp.neighborhood then
    costs.different_neighborhood_pct else 0

/-- Subdivision mismatch contribution. -/
def subdivision_pct (subject comp : Record) (costs : CostAssumptions) : ℚ :=
  if orEmptyS subject.subdivision ≠ orEmptyS comp.subdivision then
    costs.different_subdivision_pct else 0

/-- School-district mismatch contribution. -/
def school_district_pct (subject comp : Record) (costs : CostAssumptions) : ℚ :=
  if orEmptyS subject.school_district ≠ orEmptyS comp.school_district then
    costs.different_school_district_pct else 0

/-- School-rating contribution, skipped unless both averages are numeric. -/
def school_rating_pct (subject comp : Record) (costs : CostAssumptions) : ℚ :=
  match subject.avg_school_rating, comp.avg_school_rating with
  | .num a, .num b => (a - b) * costs.school_rating_pct_per_point
  | _, _ => 0

/-- Waterfront toggle contribution, signed by which side is waterfront. -/
def waterfront_pct (subject comp : Record) (costs : CostAssumptions) : ℚ :=
  let s_w := lowerS (pytrim (orEmptyS subject.waterfront))
  let c_w := lowerS (pytrim (orEmptyS comp.waterfront))
  if (s_w ≠ []) ≠ (c_w ≠ []) then
    (if s_w ≠ [] then costs.waterfront_pct else -costs.waterfront_pct) else 0

/-- Total location percentage accumulated by
`location_edu_waterfront.location_school_water` before the price multiply. -/
def location_pct (subject comp : Record) (costs : CostAssumptions) : ℚ :=
  neighborhood_pct subject comp costs + subdivision_pct subject comp costs +
    school_district_pct subject comp costs + school_rating_pct subject comp costs +
    waterfront_pct subject comp costs

/-- `location_edu_waterfront.location_school_water`: summed mismatch
percentages multiplied by the comp's sale price. -/
def location_school_water (subject comp : Record) (costs : CostAssumptions)
    (_indicated_value : PFloat) : PFloat :=
  (priceOr0 comp).mul (.val (location_pct subject comp costs))

/-- `site.lot_size`: lot square-footage delta (zero-filled when either side is
missing) times the per-square-foot rate. -/
def lot_size (subject comp : Record) (costs : CostAssumptions) : PFloat :=
  let d : ℚ := match num subject.lot_sqft, num comp.lot_sqft with
    | .val s, .val c => s - c
    | _, _ => 0
  .val (d * costs.lot_psf)

/-- `site.lot_features_fencing`: token-score difference over the concatenated
fencing and lot-features text, times the flat token value. -/
def lot_features_fencing (subject comp : Record) (costs : CostAssumptions) : PFloat :=
  let desc_s := orEmptyS subject.fencing ++ " | ".data ++ orEmptyS subject.lot_features_text
  let desc_c := orEmptyS comp.fencing ++ " | ".data ++ orEmptyS comp.lot_features_text
  .val ((site_token_score desc_s - site_token_score desc_c) * costs.fence_token)

/-- `structure.age_year_built`: per-year rate times the year-built delta,
zero when either side is missing. -/
def age_year_built (subject comp : Record) (costs : CostAssumptions) : PFloat :=
  match num subject.year_built, num comp.year_built with
  | .val s, .val c => .val ((s - c) * costs.age_per_year)
  | _, _ => .val 0

/-- `structure.style`: flat token when both styles are present and differ. -/
def style (subject comp : Record) (costs : CostAssumptions) : PFloat :=
  let s := lowerS (orEmptyS subject.style)
  let c := lowerS (orEmptyS comp.style)
  if s = c ∨ s = [] ∨ c = [] then .val 0 else .val costs.style_token

/-- `structure.construction`: flat token when both values present and differ. -/
def construction (subject comp : Record) (costs : CostAssumptions) : PFloat :=
  let s := lowerS (orEmptyS subject.construction_materials)
  let c := lowerS (orEmptyS comp.construction_materials)
  if s = c ∨ s = [] ∨ c = [] then .val 0 else .val costs.construction_token

/-- `structure.foundation`: flat token when both values present and differ. -/
def foundation (subject comp : Record) (costs : CostAssumptions) : PFloat :=
  let s := lowerS (orEmptyS subject.foundation_details)
  let c := lowerS (orEmptyS comp.foundation_details)
  if s = c ∨ s = [] ∨ c = [] then .val 0 else .val costs.foundation_token

/-- `structure.roof`: flat token when both values present and differ. -/
def roof (subject comp : Record) (costs : CostAssumptions) : PFloat :=
  let s := lowerS (orEmptyS subject.roof)
  let c := lowerS (orEmptyS comp.roof)
  if s = c ∨ s = [] ∨ c = [] then .val 0 else .val costs.roof_token

/-- Median of an already sorted, nonempty list: middle element for odd length,
average of the two middle elements for even length (numpy/pandas semantics). -/
def medianOfSorted (l : List ℚ) : ℚ :=
  if l.length % 2 = 1 then l.getD (l.length / 2) 0
  else (l.getD (l.length / 2 - 1) 0 + l.getD (l.length / 2) 0) / 2

def qsort (l : List ℚ) : List ℚ := l.insertionSort (· ≤ ·)

/-- `np.nanmedian` over a sale-price column: NaN (and absent) entries are
skipped; an all-missing column gives NaN. -/
def nanmedianNum (l : List PNum) : PFloat :=
  let v := l.filterMap (fun x => match x with | .num q => some q | _ => none)
  if v.isEmpty then .nan else .val (medianOfSorted (qsort v))

/-- The finite entries of a float column, in order. -/
def extractVals (l : List PFloat) : List ℚ :=
  l.filterMap (fun x => match x with | .val q => some q | _ => none)

/-- `pd.Series.median` of the adjusted-price column: NaN entries are skipped
(skipna); all-NaN gives NaN.  This column never carries an infinity — every
adjusted price is a capped sum over a finite or NaN base — so only the
NaN-skipping path of the pandas median is modelled here. -/
def seriesMedian (l : List PFloat) : PFloat :=
  let v := extractVals l
  if v.isEmpty then .nan else .val (medianOfSorted (qsort v))

/-- pandas scalar division: a zero divisor yields a signed infinity (or NaN
for 0/0) rather than an error. -/
def pydiv (p g : ℚ) : PFloat :=
  if g = 0 then (if 0 < p then .pinf else if p < 0 then .ninf else .nan)
  else .val (p / g)

/-- `pd.Series.median` over a column that may carry infinities: NaN entries
are skipped (skipna), the rest — including ±inf — are sorted and the middle
value (odd count) or the mean of the two middle values (even count) is
returned; an all-NaN column gives NaN. -/
def pfMedian (l : List PFloat) : PFloat :=
  let v := l.filter (fun x => !x.isNan)
  if v.isEmpty then .nan
  else
    let sorted := v.insertionSort (fun a b => pfLeb a b = true)
    if v.length % 2 = 1 then sorted.getD (v.length / 2) .nan
    else ((sorted.getD (v.length / 2 - 1) .nan).add
      (sorted.getD (v.length / 2) .nan)).half

/-- `rooms_size._market_psf`: median price per square foot over the comps
that carry both a sale price and a GLA.  A comp with a sale price and a zero
GLA survives `dropna()` and divides to ±inf (NaN for 0/0), so the market
rate can be infinite or NaN. -/
def market_psf (comps : List Record) : PFloat :=
  let v := comps.filterMap (fun c => match c.sale_price, c.gla with
    | .num p, .num g => some (pydiv p g)
    | _, _ => none)
  if v.isEmpty then .val 0 else pfMedian v

/-- `rooms_size.gla`: market rate times policy factor times the GLA delta
(delta zero-filled when either side is missing). -/
def gla (subject comp : Record) (comps_df : List Record)
    (costs : CostAssumptions) : PFloat :=
  let rate := (market_psf comps_df).mul (.val costs.gla_factor_psf)
  let d : ℚ := match num subject.gla, num comp.gla with
    | .val s, .val c => s - c
    | _, _ => 0
  (PFloat.val d).mul rate

/-- `rooms_size.above_grade`: flat per-square-foot rate, zero if either side
is missing. -/
def above_grade (subject comp : Record) (costs : CostAssumptions) : PFloat :=
  match num subject.above_grade_size, num comp.above_grade_size with
  | .val s, .val c => .val ((s - c) * costs.above_grade_psf)
  | _, _ => .val 0

/-- `rooms_size.below_grade`: blended finished/unfinished rate, zero if
either side is missing. -/
def below_grade (subject comp : Record) (costs : CostAssumptions) : PFloat :=
  match num subject.below_grade_size, num comp.below_grade_size with
  | .val s, .val c =>
    .val ((s - c) * (0.5 * costs.below_grade_finished_psf +
      0.5 * costs.below_grade_unfinished_psf))
  | _, _ => .val 0

/-- `rooms_size.bedrooms`: per-bed rate times the delta, zero if either side
is missing. -/
def bedrooms (subject comp : Record) (costs : CostAssumptions) : PFloat :=
  match num subject.beds, num comp.beds with
  | .val s, .val c => .val ((s - c) * costs.v_bed)
  | _, _ => .val 0

/-- `rooms_size.bathrooms`: a missing count on either side defaults to 0 and
the delta is still priced at the full-bath rate. -/
def bathrooms (subject comp : Record) (costs : CostAssumptions) : PFloat :=
  let s : ℚ := match num subject.baths with | .val q => q | _ => 0
  let c : ℚ := match num comp.baths with | .val q => q | _ => 0
  .val ((s - c) * costs.v_bath_full)

/-- `rooms_size.stories`: per-story rate times the delta, zero if either side
is missing. -/
def stories (subject comp : Record) (costs : CostAssumptions) : PFloat :=
  match num subject.stories, num comp.stories with
  | .val s, .val c => .val ((s - c) * costs.v_story)
  | _, _ => .val 0

/-- `condition_interior.Q_MAP` as the insertion-ordered association list the
Python dict iterates over. -/
def Q_MAP : List (Str × ℤ) :=
  [("luxury".data, 2), ("custom".data, 3), ("excellent".data, 2),
   ("above average".data, 3), ("average".data, 4), ("economy".data, 5),
   ("basic".data, 6)]

/-- `condition_interior.C_MAP` as an insertion-ordered association list. -/
def C_MAP : List (Str × ℤ) :=
  [("new".data, 2), ("excellent".data, 2), ("renovated".data, 3),
   ("updated".data, 3), ("good".data, 3), ("average".data, 4),
   ("typical".data, 4), ("outdated".data, 5), ("fair".data, 5),
   ("poor".data, 6)]

/-- `condition_interior._q_from_text`: first keyword of `Q_MAP` contained in
the lowercased style text. -/
def q_from_text (style_text : Option Str) : Option ℤ :=
  let s := lowerS (txt style_text)
  (Q_MAP.find? (fun kv => containsTok kv.1 s)).map (fun kv => kv.2)

/-- `condition_interior._c_from_text`: first keyword of `C_MAP` contained in
the lowercased condition text. -/
def c_from_text (cond_text : Option Str) : Option ℤ :=
  let s := lowerS (txt cond_text)
  (C_MAP.find? (fun kv => containsTok kv.1 s)).map (fun kv => kv.2)

/-- Python `x or 4` on the optional ordinal (no map value is 0, so this is
the `None` fallback). -/
def ordOr4 : Option ℤ → ℤ
  | none => 4
  | some v => if v = 0 then 4 else v

/-- `condition_interior.quality`: ordinal step difference applied as a
negative percentage-per-step of `indicated_value * 0.60`. -/
def quality (subject comp : Record) (costs : CostAssumptions)
    (indicated_value : PFloat) : PFloat :=
  let qs := ordOr4 (q_from_text subject.style)
  let qc := ordOr4 (q_from_text comp.style)
  let steps : ℤ := qs - qc
  let bldg_val := indicated_value.mul (.val 0.60)
  (PFloat.val ((-steps : ℤ) * costs.quality_pct_per_step)).mul bldg_val

/-- `condition_interior.condition`: like `quality` over condition labels. -/
def condition (subject comp : Record) (costs : CostAssumptions)
    (indicated_value : PFloat) : PFloat :=
  let cs := ordOr4 (c_from_text subject.property_condition_label)
  let cc := ordOr4 (c_from_text comp.property_condition_label)
  let steps : ℤ := cs - cc
  let bldg_val := indicated_value.mul (.val 0.60)
  (PFloat.val ((-steps : ℤ) * costs.condition_pct_per_step)).mul bldg_val

/-- Flooring token score used by `condition_interior.flooring`. -/
def flooring_score (s : Option Str) : ℤ :=
  let t := lowerS (txt s)
  (if containsTok "hardwood".data t || containsTok "wood".data t then 2 else 0) +
    (if containsTok "tile".data t then 1 else 0) +
    (if containsTok "vinyl".data t then -1 else 0) +
    (if containsTok "carpet".data t then -1 else 0)

/-- `condition_interior.flooring`: score difference times the interior token. -/
def flooring (subject comp : Record) (costs : CostAssumptions) : PFloat :=
  .val (((flooring_score subject.flooring - flooring_score comp.flooring : ℤ) : ℚ) *
    costs.interior_token)

def PREMIUM_TOKENS : List Str :=
  ["cathedral".data, "vaulted".data, "open beam".data, "skylight".data,
   "skylight tube".data]

/-- The `' | '`-joined, lowercased interior-feature text. -/
def joinFeatures (l : List Str) : Str :=
  match l.map (fun x => lowerS (pytrim x)) with
  | [] => []
  | h :: t => t.foldl (fun acc x => acc ++ " | ".data ++ x) h

/-- Premium-token count used by `condition_interior.interior_features`. -/
def premium_count (l : List Str) : ℤ :=
  ((PREMIUM_TOKENS.filter (fun k => containsTok k (joinFeatures l))).length : ℤ)

/-- `condition_interior.interior_features`: premium keyword count difference
times the interior token. -/
def interior_features (subject comp : Record) (costs : CostAssumptions) : PFloat :=
  .val (((premium_count subject.interior_features -
    premium_count comp.interior_features : ℤ) : ℚ) * costs.interior_token)

/-- Fireplace detection over interior features plus parking text, as in
`condition_interior.fireplace`. -/
def has_fireplace (items : List Str) (extra : Option Str) : Bool :=
  let s := joinFeatures items ++ " | ".data ++ lowerS (txt extra)
  containsTok "fireplace".data s || containsTok "fire place".data s ||
    containsTok "woodburn".data s

/-- `condition_interior.fireplace`: presence difference times the per-unit
fireplace value. -/
def fireplace (subject comp : Record) (costs : CostAssumptions) : PFloat :=
  let s_fp : ℤ := if has_fireplace subject.interior_features subject.parking_desc then 1 else 0
  let c_fp : ℤ := if has_fireplace comp.interior_features comp.parking_desc then 1 else 0
  .val (((s_fp - c_fp : ℤ) : ℚ) * costs.fireplace_each)

/-- Cooling score table of `amenities_utilities.cooling`. -/
def cooling_score (v : Str) (costs : CostAssumptions) : ℚ :=
  (if containsTok "central".data v then costs.hvac_central_bonus else 0) +
    (if containsTok "whole house fan".data v then costs.whole_house_fan_bonus else 0) +
    (if containsTok "multi".data v || containsTok "multiunits".data v then
      costs.multi_unit_cooling_bonus else 0) +
    (if containsTok "wall unit".data v || containsTok "window unit".data v then
      -500.0 else 0)

/-- `amenities_utilities.cooling`: score difference between the two sides'
cooling descriptions. -/
def cooling (subject comp : Record) (costs : CostAssumptions) : PFloat :=
  .val (cooling_score (lowerS (txt subject.cooling)) costs -
    cooling_score (lowerS (txt comp.cooling)) costs)

/-- `amenities_utilities.heating`: natural-gas presence difference times the
flat bonus. -/
def heating (subject comp : Record) (costs : CostAssumptions) : PFloat :=
  let d : ℤ := (if subject.natural_gas_connected then 1 else 0) -
    (if comp.natural_gas_connected then 1 else 0)
  .val ((d : ℚ) * costs.natural_gas_bonus)

/-- `amenities_utilities.garage_parking`: per-space value times the delta,
NaN counts treated as zero. -/
def garage_parking (subject comp : Record) (costs : CostAssumptions) : PFloat :=
  let s : ℚ := match num subject.garage_spaces with | .val q => q | _ => 0
  let c : ℚ := match num comp.garage_spaces with | .val q => q | _ => 0
  .val ((s - c) * costs.garage_space_value)

/-- `amenities_utilities.porch_deck_patio`: per-token presence difference
times that token's package value, summed over porch, patio, deck. -/
def porch_deck_patio (subject comp : Record) (costs : CostAssumptions) : PFloat :=
  let s := lowerS (txt subject.lot_features_text)
  let c := lowerS (txt comp.lot_features_text)
  let part := fun (token : Str) (pkg : ℚ) =>
    (((if containsTok token s then 1 else 0) -
      (if containsTok token c then 1 else 0) : ℤ) : ℚ) * pkg
  .val (part "porch".data costs.porch_pkg + part "patio".data costs.patio_pkg +
    part "deck".data costs.deck_pkg)

/-- `amenities_utilities.energy_utilities`: combined solar and PV presence
difference, each weighted at half the blended bonus. -/
def energy_utilities (subject comp : Record) (costs : CostAssumptions) : PFloat :=
  let d : ℤ := ((if subject.solar then 1 else 0) - (if comp.solar then 1 else 0)) +
    ((if subject.electric_pv_on_grid then 1 else 0) -
      (if comp.electric_pv_on_grid then 1 else 0))
  .val ((d : ℚ) * (0.5 * costs.solar_contrib + 0.5 * costs.pv_on_grid_bonus))

/-- `external_placeholders.external_market`: stub, always zero. -/
def external_market (_subject _comp : Record) : PFloat := .val 0

/-- `external_placeholders.exemptions`: stub, always zero. -/
def exemptions (_subject _comp : Record) : PFloat := .val 0

/-- `engine._cap`: clamp `x` into `±(|pct| * base)`.  `base or 0.0` is the
identity on floats (NaN is truthy, `0.0 or 0.0` is `0.0`). -/
def capLine (x base : PFloat) (pct : ℚ) : PFloat :=
  let cap := (PFloat.val |pct|).mul base
  pymax cap.neg (pymin cap x)

/-- One adjustment-grid row: base price, the 28 labelled capped line items in
the engine's fixed order, the capped net adjustment, the adjusted price. -/
structure RowOut where
  addr : Option Str
  base : PFloat
  items : List (String × PFloat)
  net : PFloat
  adjusted : PFloat

/-- The labelled raw (pre-cap) adjustments of one comparable, in the engine's
fixed category order. -/
def rawAdjustments (subject : Record) (comps : List Record)
    (costs : CostAssumptions) (indicated_value : PFloat) (comp : Record) :
    List (String × PFloat) :=
  [("Time (Sale Date)", sale_date subject comp costs indicated_value),
   ("HOA Fees", hoa_fee subject comp costs),
   ("Neighborhood/Subdivision/Schools/Waterfront",
     location_school_water subject comp costs indicated_value),
   ("Lot Size", lot_size subject comp costs),
   ("Lot Features / Fencing", lot_features_fencing subject comp costs),
   ("Age / Year Built", age_year_built subject comp costs),
   ("Style", style subject comp costs),
   ("Construction Materials", construction subject comp costs),
   ("Foundation", foundation subject comp costs),
   ("Roof", roof subject comp costs),
   ("GLA", gla subject comp comps costs),
   ("Above Grade Size", above_grade subject comp costs),
   ("Below Grade Size / Basement", below_grade subject comp costs),
   ("Bedrooms", bedrooms subject comp costs),
   ("Bathrooms", bathrooms subject comp costs),
   ("Stories", stories subject comp costs),
   ("Quality (Q)", quality subject comp costs indicated_value),
   ("Condition (C)", condition subject comp costs indicated_value),
   ("Flooring", flooring subject comp costs),
   ("Interior Features", interior_features subject comp costs),
   ("Fireplace", fireplace subject comp costs),
   ("Cooling", cooling subject comp costs),
   ("Heating", heating subject comp costs),
   ("Garage / Parking", garage_parking subject comp costs),
   ("Porch / Deck / Patio", porch_deck_patio subject comp costs),
   ("Energy / Utilities", energy_utilities subject comp costs),
   ("External Market (placeholders)", external_market subject comp),
   ("Exemptions (placeholders)", exemptions subject comp)]

/-- The body of the engine's per-comparable loop (`engine.run`): cap every
line item against the floored base, sum, cap the sum, derive the price. -/
def runRow (subject : Record) (comps : List Record) (policy : AdjustmentPolicy)
    (costs : CostAssumptions) (indicated_value : PFloat) (comp : Record) : RowOut :=
  let base := priceOr0 comp
  let line_base := pymax base (.val 1.0)
  let items : List (String × PFloat) :=
    (rawAdjustments subject comps costs indicated_value comp).map
      (fun it => (it.1, capLine it.2 line_base policy.line_cap_pct))
  let net0 := (items.map (fun it => it.2)).foldl PFloat.add (.val 0)
  let net := pymax ((PFloat.val (-policy.total_cap_pct)).mul line_base)
    (pymin ((PFloat.val policy.total_cap_pct).mul line_base) net0)
  { addr := comp.address, base := base, items := items, net := net,
    adjusted := base.add net }

/-- `engine.run`.  The indicated-value basis is the nan-median of the
sale-price column (NaN when no comp carries a price, matching both the
missing-column and the all-NaN-column case).  With zero comparables the
grid `pd.DataFrame([])` has no columns, so the summary's column selection
`grid['Adjusted Price (Property)']` raises a `KeyError`; that raise is
modelled as the `Except.error` branch. -/
def run (subject : Record) (comps : List Record) (policy : AdjustmentPolicy)
    (costs : CostAssumptions) : Except String (List RowOut × PFloat) :=
  let indicated_value := nanmedianNum (comps.map (fun c => c.sale_price))
  let rows := comps.map (runRow subject comps policy costs indicated_value)
  match rows with
  | [] => .error "KeyError: Adjusted Price (Property)"
  | _ :: _ => .ok (rows, seriesMedian (rows.map (fun r => r.adjusted)))

@[simp] theorem PFloat.add_val_val (a b : ℚ) :
    PFloat.add (.val a) (.val b) = .val (a + b) := rfl

@[simp] theorem PFloat.add_nan_left (x : PFloat) : PFloat.add .nan x = .nan := by
  cases x <;> rfl

@[simp] theorem PFloat.add_nan_right (x : PFloat) : PFloat.add x .nan = .nan := by
  cases x <;> rfl

@[simp] theorem PFloat.mul_val_val (a b : ℚ) :
    PFloat.mul (.val a) (.val b) = .val (a * b) := rfl

@[simp] theorem PFloat.mul_nan_left (x : PFloat) : PFloat.mul .nan x = .nan := by
  cases x <;> rfl

@[simp] theorem PFloat.mul_nan_right (x : PFloat) : PFloat.mul x .nan = .nan := by
  cases x <;> rfl

@[simp] theorem PFloat.neg_val (a : ℚ) : PFloat.neg (.val a) = .val (-a) := rfl

@[simp] theorem PFloat.neg_nan : PFloat.neg .nan = .nan := rfl

@[simp] theorem pymin_val_val (a b : ℚ) :
    pymin (.val a) (.val b) = .val (min a b) := by
  by_cases h : b < a
  · simp [pymin, PFloat.ltb, h, min_eq_right h.le]
  · simp [pymin, PFloat.ltb, h, min_eq_left (not_lt.mp h)]

@[simp] theorem pymax_val_val (a b : ℚ) :
    pymax (.val a) (.val b) = .val (max a b) := by
  by_cases h : a < b
  · simp [pymax, PFloat.ltb, h, max_eq_right h.le]
  · simp [pymax, PFloat.ltb, h, max_eq_left (not_lt.mp h)]

@[simp] theorem pymin_val_nan (a : ℚ) : pymin (.val a) .nan = .val a := rfl

@[simp] theorem pymin_nan_left (x : PFloat) : pymin .nan x = .nan := by
  cases x <;> rfl

@[simp] theorem pymax_val_nan (a : ℚ) : pymax (.val a) .nan = .val a := rfl

@[simp] theorem pymax_nan_left (x : PFloat) : pymax .nan x = .nan := by
  cases x <;> rfl

@[simp] theorem pymin_val_pinf (a : ℚ) : pymin (.val a) .pinf = .val a := rfl

@[simp] theorem pymin_val_ninf (a : ℚ) : pymin (.val a) .ninf = .ninf := rfl

@[simp] theorem pymax_val_pinf (a : ℚ) : pymax (.val a) .pinf = .pinf := rfl

@[simp] theorem pymax_val_ninf (a : ℚ) : pymax (.val a) .ninf = .val a := rfl

/-- `_cap` on a finite adjustment over a finite base clamps into the window. -/
theorem capLine_val_val (x b pct : ℚ) :
    capLine (.val x) (.val b) pct = .val (max (-(|pct| * b)) (min (|pct| * b) x)) := by
  simp [capLine]

/-- `_cap` of a NaN adjustment over a finite base returns an endpoint of the
window (Python's positional `min`/`max` silently swallow the NaN). -/
theorem capLine_nan_val (b pct : ℚ) :
    capLine .nan (.val b) pct = .val (max (-(|pct| * b)) (|pct| * b)) := by
  simp [capLine]

/-- `_cap` of a +inf adjustment over a finite base lands on an endpoint of
the window (Python's positional `min` swallows the infinity). -/
theorem capLine_pinf_val (b pct : ℚ) :
    capLine .pinf (.val b) pct = .val (max (-(|pct| * b)) (|pct| * b)) := by
  simp [capLine]

/-- `_cap` of a −inf adjustment over a finite base lands on the lower
endpoint of the window. -/
theorem capLine_ninf_val (b pct : ℚ) :
    capLine .ninf (.val b) pct = .val (-(|pct| * b)) := by
  simp [capLine]

/-- `_cap` over a NaN base is NaN whatever the adjustment. -/
@[simp] theorem capLine_nan_base (x : PFloat) (pct : ℚ) :
    capLine x .nan pct = .nan := by
  cases x <;> simp [capLine]

/-- Claim C1: at the spec's own example — subject sale date 2024-06-01, comp
sale date 2023-06-01, monthly trend rate 0.0025, comp sale price $500,000 —
the sale-date rule returns −$15,000, not the +$15,000 the claim (and the
source's own inline comment, "older comp -> trend up") require: the code
computes `months_between(subject, comp) = +12` and multiplies by the negated
trend rate, so an older comp is adjusted downward. -/
theorem C1_sale_date_sign_eval :
    sale_date { sale_date := some "2024-06-01".data }
      { sale_date := some "2023-06-01".data, sale_price := .num 500000 }
      defaultCosts .nan = .val (-15000) := by
  have h1 : parseDate ("2024-06-01".data) = some (2024, 6) := by decide
  have h2 : parseDate ("2023-06-01".data) = some (2023, 6) := by decide
  have hm : months_between (some ("2024-06-01".data)) (some ("2023-06-01".data)) = 12 := by
    simp only [months_between]
    rw [if_neg (by decide), h1, h2]
    norm_num
  simp [sale_date, priceOr0, hm, defaultCosts]
  norm_num

/-- Claim C2: with an empty comparable collection the engine does not return
an empty grid and a NaN summary — building the summary selects the
`Adjusted Price (Property)` column of `pd.DataFrame([])`, which has no
columns, so `run` raises a `KeyError` (the `Except.error` branch). -/
theorem C2_empty_comps_raises (subject : Record) (policy : AdjustmentPolicy)
    (costs : CostAssumptions) :
    run subject [] policy costs = .error "KeyError: Adjusted Price (Property)" := rfl

/-- Claim C5: subject style containing "luxury" maps to ordinal 2, comp style
"average" to ordinal 4, so with median comp price $500,000 and 0.04 per step
the quality rule returns exactly +$24,000 = −(2−4) × 0.04 × (0.60 × 500000);
unmatched style text defaults to the mid-scale ordinal 4. -/
theorem C5_quality_example :
    quality { style := some "luxury".data } { style := some "average".data }
        defaultCosts (.val 500000) = .val 24000
    ∧ q_from_text (some "luxury".data) = some 2
    ∧ q_from_text (some "average".data) = some 4
    ∧ ordOr4 (q_from_text (some "ranch".data)) = 4 := by
  have hl : q_from_text (some "luxury".data) = some 2 := by decide
  have ha : q_from_text (some "average".data) = some 4 := by decide
  have hr : ordOr4 (q_from_text (some "ranch".data)) = 4 := by decide
  refine ⟨?_, hl, ha, hr⟩
  simp [quality, hl, ha, ordOr4, defaultCosts]
  norm_num

/-- Claim C8: swapping the subject and comp negates the age, bedrooms,
bathrooms, stories and lot-size adjustments, for every pair of records and
every cost model. -/
theorem C8_swap_antisymmetry (A B : Record) (costs : CostAssumptions) :
    age_year_built A B costs = (age_year_built B A costs).neg
    ∧ bedrooms A B costs = (bedrooms B A costs).neg
    ∧ bathrooms A B costs = (bathrooms B A costs).neg
    ∧ stories A B costs = (stories B A costs).neg
    ∧ lot_size A B costs = (lot_size B A costs).neg := by
  refine ⟨?_, ?_, ?_, ?_, ?_⟩
  · cases hA : num A.year_built <;> cases hB : num B.year_built <;>
      simp [age_year_built, hA, hB] <;> ring
  · cases hA : num A.beds <;> cases hB : num B.beds <;>
      simp [bedrooms, hA, hB] <;> ring
  · cases hA : num A.baths <;> cases hB : num B.baths <;>
      simp [bathrooms, hA, hB] <;> ring
  · cases hA : num A.stories <;> cases hB : num B.stories <;>
      simp [stories, hA, hB] <;> ring
  · cases hA : num A.lot_sqft <;> cases hB : num B.lot_sqft <;>
      simp [lot_size, hA, hB] <;> ring

/-- Claim C10: the configurable `building_share` cost parameter is never read
by any rule or by the engine (the quality/condition building basis is the
hardcoded 0.60), so two runs whose cost models differ only in
`building_share` produce identical grids and summaries. -/
theorem C10_building_share_never_affects_output (subject : Record)
    (comps : List Record) (policy : AdjustmentPolicy) (costs : CostAssumptions)
    (bs : ℚ) :
    run subject comps policy { costs with building_share := bs } =
      run subject comps policy costs := by
  cases costs
  rfl

theorem sale_date_missing_zero (s c : Record) (costs : CostAssumptions)
    (iv : PFloat) (b : ℚ) (h1 : s.sale_date = none) (hp : priceOr0 c = .val b) :
    sale_date s c costs iv = .val 0 := by
  cases hc : c.sale_date <;>
    simp [sale_date, months_between, h1, hc, hp]

theorem hoa_fee_missing_zero (s c : Record) (costs : CostAssumptions)
    (h : num s.hoa_fee = .nan ∨ num c.hoa_fee = .nan) :
    hoa_fee s c costs = .val 0 := by
  rcases h with h | h
  · cases hc : num c.hoa_fee <;> simp [hoa_fee, h, hc]
  · cases hs : num s.hoa_fee <;> simp [hoa_fee, hs, h]

theorem neighborhood_pct_both_missing (s c : Record) (costs : CostAssumptions)
    (h1 : s.neighborhood = none) (h2 : c.neighborhood = none) :
    neighborhood_pct s c costs = 0 := by
  simp [neighborhood_pct, h1, h2]

theorem subdivision_pct_both_missing (s c : Record) (costs : CostAssumptions)
    (h1 : s.subdivision = none) (h2 : c.subdivision = none) :
    subdivision_pct s c costs = 0 := by
  simp [subdivision_pct, h1, h2]

theorem school_district_pct_both_missing (s c : Record) (costs : CostAssumptions)
    (h1 : s.school_district = none) (h2 : c.school_district = none) :
    school_district_pct s c costs = 0 := by
  simp [school_district_pct, h1, h2]

theorem school_rating_pct_missing (s c : Record) (costs : CostAssumptions)
    (h1 : s.avg_school_rating = .pnone) :
    school_rating_pct s c costs = 0 := by
  cases hc : c.avg_school_rating <;> simp [school_rating_pct, h1, hc]

theorem waterfront_pct_both_missing (s c : Record) (costs : CostAssumptions)
    (h1 : s.waterfront = none) (h2 : c.waterfront = none) :
    waterfront_pct s c costs = 0 := by
  simp [waterfront_pct, h1, h2, orEmptyS, pytrim, lowerS]

theorem location_missing_zero (s c : Record) (costs : CostAssumptions)
    (iv : PFloat) (b : ℚ) (h1 : s.neighborhood = none) (h2 : c.neighborhood = none)
    (h3 : s.subdivision = none) (h4 : c.subdivision = none)
    (h5 : s.school_district = none) (h6 : c.school_district = none)
    (h7 : s.avg_school_rating = .pnone) (h8 : s.waterfront = none)
    (h9 : c.waterfront = none) (hp : priceOr0 c = .val b) :
    location_school_water s c costs iv = .val 0 := by
  simp [location_school_water, location_pct, hp,
    neighborhood_pct_both_missing s c costs h1 h2,
    subdivision_pct_both_missing s c costs h3 h4,
    school_district_pct_both_missing s c costs h5 h6,
    school_rating_pct_missing s c costs h7,
    waterfront_pct_both_missing s c costs h8 h9]

theorem lot_size_missing_zero (s c : Record) (costs : CostAssumptions)
    (h : num s.lot_sqft = .nan ∨ num c.lot_sqft = .nan) :
    lot_size s c costs = .val 0 := by
  rcases h with h | h
  · cases hc : num c.lot_sqft <;> simp [lot_size, h, hc]
  · cases hs : num s.lot_sqft <;> simp [lot_size, hs, h]

theorem lot_features_fencing_missing_zero (s c : Record) (costs : CostAssumptions)
    (h1 : s.fencing = none) (h2 : s.lot_features_text = none)
    (h3 : c.fencing = none) (h4 : c.lot_features_text = none) :
    lot_features_fencing s c costs = .val 0 := by
  simp [lot_features_fencing, h1, h2, h3, h4, orEmptyS]

theorem age_year_built_missing_zero (s c : Record) (costs : CostAssumptions)
    (h : num s.year_built = .nan ∨ num c.year_built = .nan) :
    age_year_built s c costs = .val 0 := by
  rcases h with h | h
  · cases hc : num c.year_built <;> simp [age_year_built, h, hc]
  · cases hs : num s.year_built <;> simp [age_year_built, hs, h]

theorem style_missing_zero (s c : Record) (costs : CostAssumptions)
    (h1 : s.style = none) (h2 : c.style = none) :
    style s c costs = .val 0 := by
  simp [style, h1, h2, orEmptyS, lowerS]

theorem construction_missing_zero (s c : Record) (costs : CostAssumptions)
    (h1 : s.construction_materials = none) (h2 : c.construction_materials = none) :
    construction s c costs = .val 0 := by
  simp [construction, h1, h2, orEmptyS, lowerS]

theorem foundation_missing_zero (s c : Record) (costs : CostAssumptions)
    (h1 : s.foundation_details = none) (h2 : c.foundation_details = none) :
    foundation s c costs = .val 0 := by
  simp [foundation, h1, h2, orEmptyS, lowerS]

theorem roof_missing_zero (s c : Record) (costs : CostAssumptions)
    (h1 : s.roof = none) (h2 : c.roof = none) :
    roof s c costs = .val 0 := by
  simp [roof, h1, h2, orEmptyS, lowerS]

theorem gla_missing_zero (s c : Record) (comps_df : List Record)
    (costs : CostAssumptions) (r : ℚ) (hr : market_psf comps_df = .val r)
    (h : num s.gla = .nan ∨ num c.gla = .nan) :
    gla s c comps_df costs = .val 0 := by
  rcases h with h | h
  · cases hc : num c.gla <;> simp [gla, h, hc, hr]
  · cases hs : num s.gla <;> simp [gla, hs, h, hr]

theorem val_zero_mul_pinf_val (f : ℚ) :
    (PFloat.val 0).mul (PFloat.pinf.mul (.val f)) = .nan := by
  rcases lt_trichotomy (0 : ℚ) f with hf | hf | hf
  · have h2 : PFloat.pinf.mul (.val f) = .pinf := by simp [PFloat.mul, hf]
    rw [h2]
    simp [PFloat.mul]
  · have h2 : PFloat.pinf.mul (.val f) = .nan := by simp [PFloat.mul, ← hf]
    rw [h2]
    simp
  · have h2 : PFloat.pinf.mul (.val f) = .ninf := by
      simp [PFloat.mul, hf, not_lt.mpr hf.le]
    rw [h2]
    simp [PFloat.mul]

/-- The GLA rule over a market collection holding a priced comp with zero
GLA: the pandas rate is +inf, and a zero delta (both sides missing) times an
infinite rate is NaN, not 0.0. -/
theorem gla_zero_gla_comp_nan (s c : Record) (costs : CostAssumptions)
    (h : num s.gla = .nan ∨ num c.gla = .nan) :
    gla s c [{ sale_price := .num 4, gla := .num 0 }] costs = .nan := by
  have hmp : market_psf [({ sale_price := PNum.num 4, gla := PNum.num 0 } : Record)] =
      .pinf := by
    have hd : pydiv 4 0 = .pinf := by
      rw [pydiv, if_pos rfl, if_pos (by norm_num)]
    simp [market_psf, pfMedian, hd, List.insertionSort, PFloat.isNan]
  rcases h with h | h
  · cases hc : num c.gla <;>
      simp only [gla, h, hc, hmp, val_zero_mul_pinf_val]
  · cases hs : num s.gla <;>
      simp only [gla, hs, h, hmp, val_zero_mul_pinf_val]

theorem above_grade_missing_zero (s c : Record) (costs : CostAssumptions)
    (h : num s.above_grade_size = .nan ∨ num c.above_grade_size = .nan) :
    above_grade s c costs = .val 0 := by
  rcases h with h | h
  · cases hc : num c.above_grade_size <;> simp [above_grade, h, hc]
  · cases hs : num s.above_grade_size <;> simp [above_grade, hs, h]

theorem below_grade_missing_zero (s c : Record) (costs : CostAssumptions)
    (h : num s.below_grade_size = .nan ∨ num c.below_grade_size = .nan) :
    below_grade s c costs = .val 0 := by
  rcases h with h | h
  · cases hc : num c.below_grade_size <;> simp [below_grade, h, hc]
  · cases hs : num s.below_grade_size <;> simp [below_grade, hs, h]

theorem bedrooms_missing_zero (s c : Record) (costs : CostAssumptions)
    (h : num s.beds = .nan ∨ num c.beds = .nan) :
    bedrooms s c costs = .val 0 := by
  rcases h with h | h
  · cases hc : num c.beds <;> simp [bedrooms, h, hc]
  · cases hs : num s.beds <;> simp [bedrooms, hs, h]

theorem bathrooms_both_missing_zero (s c : Record) (costs : CostAssumptions)
    (h1 : num s.baths = .nan) (h2 : num c.baths = .nan) :
    bathrooms s c costs = .val 0 := by
  simp [bathrooms, h1, h2]

theorem stories_missing_zero (s c : Record) (costs : CostAssumptions)
    (h : num s.stories = .nan ∨ num c.stories = .nan) :
    stories s c costs = .val 0 := by
  rcases h with h | h
  · cases hc : num c.stories <;> simp [stories, h, hc]
  · cases hs : num s.stories <;> simp [stories, hs, h]

theorem quality_missing_zero (s c : Record) (costs : CostAssumptions) (q : ℚ)
    (h1 : s.style = none) (h2 : c.style = none) :
    quality s c costs (.val q) = .val 0 := by
  have hq : q_from_text none = none := by decide
  simp [quality, h1, h2, hq, ordOr4]

/-- With an undefined market basis the quality rule returns NaN, whatever the
records: `-steps * pct` is a float and any float times NaN is NaN. -/
theorem quality_nan_basis (s c : Record) (costs : CostAssumptions) :
    quality s c costs .nan = .nan := by
  simp [quality]

theorem condition_missing_zero (s c : Record) (costs : CostAssumptions) (q : ℚ)
    (h1 : s.property_condition_label = none) (h2 : c.property_condition_label = none) :
    condition s c costs (.val q) = .val 0 := by
  have hc : c_from_text none = none := by decide
  simp [condition, h1, h2, hc, ordOr4]

/-- With an undefined market basis the condition rule returns NaN. -/
theorem condition_nan_basis (s c : Record) (costs : CostAssumptions) :
    condition s c costs .nan = .nan := by
  simp [condition]

theorem flooring_both_missing_zero (s c : Record) (costs : CostAssumptions)
    (h1 : s.flooring = none) (h2 : c.flooring = none) :
    flooring s c costs = .val 0 := by
  simp [flooring, h1, h2]

theorem interior_features_both_missing_zero (s c : Record) (costs : CostAssumptions)
    (h1 : s.interior_features = []) (h2 : c.interior_features = []) :
    interior_features s c costs = .val 0 := by
  simp [interior_features, h1, h2]

theorem fireplace_both_missing_zero (s c : Record) (costs : CostAssumptions)
    (h1 : s.interior_features = []) (h2 : s.parking_desc = none)
    (h3 : c.interior_features = []) (h4 : c.parking_desc = none) :
    fireplace s c costs = .val 0 := by
  simp [fireplace, h1, h2, h3, h4]

theorem cooling_both_missing_zero (s c : Record) (costs : CostAssumptions)
    (h1 : s.cooling = none) (h2 : c.cooling = none) :
    cooling s c costs = .val 0 := by
  simp [cooling, h1, h2]

theorem heating_both_missing_zero (s c : Record) (costs : CostAssumptions)
    (h1 : s.natural_gas_connected = false) (h2 : c.natural_gas_connected = false) :
    heating s c costs = .val 0 := by
  simp [heating, h1, h2]

theorem garage_parking_both_missing_zero (s c : Record) (costs : CostAssumptions)
    (h1 : num s.garage_spaces = .nan) (h2 : num c.garage_spaces = .nan) :
    garage_parking s c costs = .val 0 := by
  simp [garage_parking, h1, h2]

theorem porch_deck_patio_both_missing_zero (s c : Record) (costs : CostAssumptions)
    (h1 : s.lot_features_text = none) (h2 : c.lot_features_text = none) :
    porch_deck_patio s c costs = .val 0 := by
  simp [porch_deck_patio, h1, h2]

theorem energy_utilities_both_missing_zero (s c : Record) (costs : CostAssumptions)
    (h1 : s.solar = false) (h2 : c.solar = false)
    (h3 : s.electric_pv_on_grid = false) (h4 : c.electric_pv_on_grid = false) :
    energy_utilities s c costs = .val 0 := by
  simp [energy_utilities, h1, h2, h3, h4]

/-- Claim C4 counterexample: the bathrooms rule does not return 0.0 when one
side's count is missing — a missing subject count defaults to 0 and the comp's
2 baths price at −$24,000; and the location rule does contribute the
neighborhood mismatch percentage when only one side's neighborhood is
missing, because `None` is coerced to `''` which differs from any nonempty
name. -/
theorem C4_one_sided_missing_counterexample :
    bathrooms ({} : Record) { baths := .num 2 } defaultCosts = .val (-24000)
    ∧ bathrooms ({} : Record) { baths := .num 2 } defaultCosts ≠ .val 0
    ∧ neighborhood_pct ({} : Record) { neighborhood := some "downtown".data }
        defaultCosts ≠ 0 := by
  have hb : bathrooms ({} : Record) { baths := .num 2 } defaultCosts = .val (-24000) := by
    simp [bathrooms, num, defaultCosts]
    norm_num
  refine ⟨hb, ?_, ?_⟩
  · rw [hb]
    simp only [ne_eq, PFloat.val.injEq]
    norm_num
  · simp only [neighborhood_pct]
    rw [if_pos (by decide)]
    simp [defaultCosts]
    norm_num

/-- Claim C4 as amended: no rule raises on missing input (all embedded rules
are total); bedrooms and stories return exactly 0.0 when either side's count
is missing; bathrooms returns 0.0 only when both counts are missing (a single
missing side is defaulted to 0, not neutralized); and the location rule's
neighborhood, subdivision and school-district mismatch contributions are zero
when both sides are missing (one-sided absence counts as a mismatch). -/
theorem C4_missing_input_handling (s c : Record) (costs : CostAssumptions) :
    ((num s.beds = .nan ∨ num c.beds = .nan) → bedrooms s c costs = .val 0)
    ∧ ((num s.stories = .nan ∨ num c.stories = .nan) → stories s c costs = .val 0)
    ∧ (num s.baths = .nan → num c.baths = .nan → bathrooms s c costs = .val 0)
    ∧ (s.neighborhood = none → c.neighborhood = none →
        neighborhood_pct s c costs = 0)
    ∧ (s.subdivision = none → c.subdivision = none →
        subdivision_pct s c costs = 0)
    ∧ (s.school_district = none → c.school_district = none →
        school_district_pct s c costs = 0) :=
  ⟨bedrooms_missing_zero s c costs, stories_missing_zero s c costs,
   bathrooms_both_missing_zero s c costs, neighborhood_pct_both_missing s c costs,
   subdivision_pct_both_missing s c costs, school_district_pct_both_missing s c costs⟩

/-- Witness for C4's amended theorem at fully-missing records. -/
theorem C4_missing_input_handling_witness :
    bedrooms ({} : Record) ({} : Record) defaultCosts = .val 0
    ∧ stories ({} : Record) ({} : Record) defaultCosts = .val 0
    ∧ bathrooms ({} : Record) ({} : Record) defaultCosts = .val 0
    ∧ neighborhood_pct ({} : Record) ({} : Record) defaultCosts = 0
    ∧ subdivision_pct ({} : Record) ({} : Record) defaultCosts = 0
    ∧ school_district_pct ({} : Record) ({} : Record) defaultCosts = 0 := by
  obtain ⟨h1, h2, h3, h4, h5, h6⟩ :=
    C4_missing_input_handling ({} : Record) ({} : Record) defaultCosts
  exact ⟨h1 (Or.inl rfl), h2 (Or.inl rfl), h3 rfl rfl, h4 rfl rfl, h5 rfl rfl,
    h6 rfl rfl⟩

/-- Claim C7 counterexample: over a comparable collection with no sale price
the market-basis median is NaN, and then the quality rule on records whose
style fields are both undefined returns NaN — not exactly 0.0 as the claim
requires. -/
theorem C7_quality_undefined_basis_counterexample :
    nanmedianNum (([({} : Record)]).map (fun c => c.sale_price)) = .nan
    ∧ quality ({} : Record) ({} : Record) defaultCosts
        (nanmedianNum (([({} : Record)]).map (fun c => c.sale_price))) = .nan
    ∧ (PFloat.nan : PFloat) ≠ .val 0 := by
  have hn : nanmedianNum (([({} : Record)]).map (fun c => c.sale_price)) = .nan := by
    simp [nanmedianNum]
  refine ⟨hn, ?_, by simp⟩
  rw [hn]
  exact quality_nan_basis _ _ _

/-- Claim C7 as amended: every rule returns exactly 0.0 when the fields it
reads are missing on both sides, with two exceptions: when the market-basis
median is undefined (NaN) the quality and condition rules return NaN for all
records, and the GLA rule returns 0.0 only while the market
price-per-square-foot is finite — a priced comp with zero GLA makes the
pandas rate infinite, and the rule then returns NaN (zero delta times an
infinite rate) even with both GLA fields missing. -/
theorem C7_both_undefined_zero (s c : Record) (costs : CostAssumptions)
    (q : ℚ) (iv : PFloat) :
    (s.sale_date = none → c.sale_price = .pnone → sale_date s c costs iv = .val 0)
    ∧ ((num s.hoa_fee = .nan ∨ num c.hoa_fee = .nan) → hoa_fee s c costs = .val 0)
    ∧ (s.neighborhood = none → c.neighborhood = none → s.subdivision = none →
        c.subdivision = none → s.school_district = none → c.school_district = none →
        s.avg_school_rating = .pnone → s.waterfront = none → c.waterfront = none →
        c.sale_price = .pnone → location_school_water s c costs iv = .val 0)
    ∧ ((num s.lot_sqft = .nan ∨ num c.lot_sqft = .nan) → lot_size s c costs = .val 0)
    ∧ (s.fencing = none → s.lot_features_text = none → c.fencing = none →
        c.lot_features_text = none → lot_features_fencing s c costs = .val 0)
    ∧ ((num s.year_built = .nan ∨ num c.year_built = .nan) →
        age_year_built s c costs = .val 0)
    ∧ (s.style = none → c.style = none → style s c costs = .val 0)
    ∧ (s.construction_materials = none → c.construction_materials = none →
        construction s c costs = .val 0)
    ∧ (s.foundation_details = none → c.foundation_details = none →
        foundation s c costs = .val 0)
    ∧ (s.roof = none → c.roof = none → roof s c costs = .val 0)
    ∧ (∀ comps_df r, market_psf comps_df = .val r →
        (num s.gla = .nan ∨ num c.gla = .nan) → gla s c comps_df costs = .val 0)
    ∧ ((num s.gla = .nan ∨ num c.gla = .nan) →
        gla s c [{ sale_price := .num 4, gla := .num 0 }] costs = .nan)
    ∧ ((num s.above_grade_size = .nan ∨ num c.above_grade_size = .nan) →
        above_grade s c costs = .val 0)
    ∧ ((num s.below_grade_size = .nan ∨ num c.below_grade_size = .nan) →
        below_grade s c costs = .val 0)
    ∧ ((num s.beds = .nan ∨ num c.beds = .nan) → bedrooms s c costs = .val 0)
    ∧ (num s.baths = .nan → num c.baths = .nan → bathrooms s c costs = .val 0)
    ∧ ((num s.stories = .nan ∨ num c.stories = .nan) → stories s c costs = .val 0)
    ∧ (s.style = none → c.style = none → quality s c costs (.val q) = .val 0)
    ∧ (s.property_condition_label = none → c.property_condition_label = none →
        condition s c costs (.val q) = .val 0)
    ∧ quality s c costs .nan = .nan
    ∧ condition s c costs .nan = .nan
    ∧ (s.flooring = none → c.flooring = none → flooring s c costs = .val 0)
    ∧ (s.interior_features = [] → c.interior_features = [] →
        interior_features s c costs = .val 0)
    ∧ (s.interior_features = [] → s.parking_desc = none → c.interior_features = [] →
        c.parking_desc = none → fireplace s c costs = .val 0)
    ∧ (s.cooling = none → c.cooling = none → cooling s c costs = .val 0)
    ∧ (s.natural_gas_connected = false → c.natural_gas_connected = false →
        heating s c costs = .val 0)
    ∧ (num s.garage_spaces = .nan → num c.garage_spaces = .nan →
        garage_parking s c costs = .val 0)
    ∧ (s.lot_features_text = none → c.lot_features_text = none →
        porch_deck_patio s c costs = .val 0)
    ∧ (s.solar = false → c.solar = false → s.electric_pv_on_grid = false →
        c.electric_pv_on_grid = false → energy_utilities s c costs = .val 0)
    ∧ external_market s c = .val 0
    ∧ exemptions s c = .val 0 :=
  ⟨fun h1 hp => sale_date_missing_zero s c costs iv 0 h1 (by simp [priceOr0, hp]),
   hoa_fee_missing_zero s c costs,
   fun h1 h2 h3 h4 h5 h6 h7 h8 h9 hp =>
     location_missing_zero s c costs iv 0 h1 h2 h3 h4 h5 h6 h7 h8 h9
       (by simp [priceOr0, hp]),
   lot_size_missing_zero s c costs,
   lot_features_fencing_missing_zero s c costs,
   age_year_built_missing_zero s c costs,
   style_missing_zero s c costs,
   construction_missing_zero s c costs,
   foundation_missing_zero s c costs,
   roof_missing_zero s c costs,
   fun comps_df r hr h => gla_missing_zero s c comps_df costs r hr h,
   gla_zero_gla_comp_nan s c costs,
   above_grade_missing_zero s c costs,
   below_grade_missing_zero s c costs,
   bedrooms_missing_zero s c costs,
   bathrooms_both_missing_zero s c costs,
   stories_missing_zero s c costs,
   quality_missing_zero s c costs q,
   condition_missing_zero s c costs q,
   quality_nan_basis s c costs,
   condition_nan_basis s c costs,
   flooring_both_missing_zero s c costs,
   interior_features_both_missing_zero s c costs,
   fireplace_both_missing_zero s c costs,
   cooling_both_missing_zero s c costs,
   heating_both_missing_zero s c costs,
   garage_parking_both_missing_zero s c costs,
   porch_deck_patio_both_missing_zero s c costs,
   energy_utilities_both_missing_zero s c costs,
   rfl, rfl⟩

/-- Witness for C7's amended theorem at fully-missing records. -/
theorem C7_both_undefined_zero_witness :
    sale_date ({} : Record) ({} : Record) defaultCosts .nan = .val 0
    ∧ hoa_fee ({} : Record) ({} : Record) defaultCosts = .val 0
    ∧ location_school_water ({} : Record) ({} : Record) defaultCosts .nan = .val 0
    ∧ lot_size ({} : Record) ({} : Record) defaultCosts = .val 0
    ∧ lot_features_fencing ({} : Record) ({} : Record) defaultCosts = .val 0
    ∧ age_year_built ({} : Record) ({} : Record) defaultCosts = .val 0
    ∧ style ({} : Record) ({} : Record) defaultCosts = .val 0
    ∧ construction ({} : Record) ({} : Record) defaultCosts = .val 0
    ∧ foundation ({} : Record) ({} : Record) defaultCosts = .val 0
    ∧ roof ({} : Record) ({} : Record) defaultCosts = .val 0
    ∧ gla ({} : Record) ({} : Record) [] defaultCosts = .val 0
    ∧ gla ({} : Record) ({} : Record)
        [{ sale_price := PNum.num 4, gla := PNum.num 0 }] defaultCosts = .nan
    ∧ above_grade ({} : Record) ({} : Record) defaultCosts = .val 0
    ∧ below_grade ({} : Record) ({} : Record) defaultCosts = .val 0
    ∧ bedrooms ({} : Record) ({} : Record) defaultCosts = .val 0
    ∧ bathrooms ({} : Record) ({} : Record) defaultCosts = .val 0
    ∧ stories ({} : Record) ({} : Record) defaultCosts = .val 0
    ∧ quality ({} : Record) ({} : Record) defaultCosts (.val 1) = .val 0
    ∧ condition ({} : Record) ({} : Record) defaultCosts (.val 1) = .val 0
    ∧ quality ({} : Record) ({} : Record) defaultCosts .nan = .nan
    ∧ condition ({} : Record) ({} : Record) defaultCosts .nan = .nan
    ∧ flooring ({} : Record) ({} : Record) defaultCosts = .val 0
    ∧ interior_features ({} : Record) ({} : Record) defaultCosts = .val 0
    ∧ fireplace ({} : Record) ({} : Record) defaultCosts = .val 0
    ∧ cooling ({} : Record) ({} : Record) defaultCosts = .val 0
    ∧ heating ({} : Record) ({} : Record) defaultCosts = .val 0
    ∧ garage_parking ({} : Record) ({} : Record) defaultCosts = .val 0
    ∧ porch_deck_patio ({} : Record) ({} : Record) defaultCosts = .val 0
    ∧ energy_utilities ({} : Record) ({} : Record) defaultCosts = .val 0
    ∧ external_market ({} : Record) ({} : Record) = .val 0
    ∧ exemptions ({} : Record) ({} : Record) = .val 0 := by
  obtain ⟨a1, a2, a3, a4, a5, a6, a7, a8, a9, a10, a11, a11x, a12, a13, a14, a15,
    a16, a17, a18, a19, a20, a21, a22, a23, a24, a25, a26, a27, a28, a29, a30⟩ :=
    C7_both_undefined_zero ({} : Record) ({} : Record) defaultCosts 1 .nan
  exact ⟨a1 rfl rfl, a2 (Or.inl rfl), a3 rfl rfl rfl rfl rfl rfl rfl rfl rfl rfl,
    a4 (Or.inl rfl), a5 rfl rfl rfl rfl, a6 (Or.inl rfl), a7 rfl rfl, a8 rfl rfl,
    a9 rfl rfl, a10 rfl rfl, a11 [] 0 rfl (Or.inl rfl), a11x (Or.inl rfl),
    a12 (Or.inl rfl),
    a13 (Or.inl rfl), a14 (Or.inl rfl), a15 rfl rfl, a16 (Or.inl rfl),
    a17 rfl rfl, a18 rfl rfl, a19, a20, a21 rfl rfl, a22 rfl rfl,
    a23 rfl rfl rfl rfl, a24 rfl rfl, a25 rfl rfl, a26 rfl rfl, a27 rfl rfl,
    a28 rfl rfl rfl rfl, a29, a30⟩

/-- `_cap` over a finite nonnegative base with a nonnegative percentage always
yields a finite value inside the window, whatever the raw adjustment. -/
theorem capLine_bounds (x : PFloat) (B pct : ℚ) (hp : 0 ≤ pct) (hB : 0 ≤ B) :
    ∃ q, capLine x (.val B) pct = .val q ∧ |q| ≤ pct * B := by
  have habs : |pct| = pct := abs_of_nonneg hp
  have hcB : 0 ≤ pct * B := mul_nonneg hp hB
  cases x with
  | nan =>
    refine ⟨pct * B, ?_, ?_⟩
    · rw [capLine_nan_val, habs, max_eq_right (by linarith)]
    · rw [abs_of_nonneg hcB]
  | val v =>
    refine ⟨max (-(pct * B)) (min (pct * B) v), ?_, ?_⟩
    · rw [capLine_val_val, habs]
    · rw [abs_le]
      exact ⟨le_max_left _ _, max_le (by linarith) (min_le_left _ _)⟩
  | pinf =>
    refine ⟨pct * B, ?_, ?_⟩
    · rw [capLine_pinf_val, habs, max_eq_right (by linarith)]
    · rw [abs_of_nonneg hcB]
  | ninf =>
    refine ⟨-(pct * B), ?_, ?_⟩
    · rw [capLine_ninf_val, habs]
    · rw [abs_neg, abs_of_nonneg hcB]

/-- The engine's net-adjustment clamp yields a finite value inside the total
window, whatever the summed line items. -/
theorem net_clamp_bounds (x : PFloat) (B tc : ℚ) (ht : 0 ≤ tc) (hB : 0 ≤ B) :
    ∃ q, pymax ((PFloat.val (-tc)).mul (.val B))
        (pymin ((PFloat.val tc).mul (.val B)) x) = .val q ∧ |q| ≤ tc * B := by
  have hcB : 0 ≤ tc * B := mul_nonneg ht hB
  have hneg : (-tc) * B = -(tc * B) := by ring
  cases x with
  | nan =>
    refine ⟨tc * B, ?_, by rw [abs_of_nonneg hcB]⟩
    simp only [PFloat.mul_val_val, pymin_val_nan, pymax_val_val, hneg]
    rw [max_eq_right (by linarith)]
  | val v =>
    refine ⟨max (-(tc * B)) (min (tc * B) v), ?_, ?_⟩
    · simp only [PFloat.mul_val_val, pymin_val_val, pymax_val_val, hneg]
    · rw [abs_le]
      exact ⟨le_max_left _ _, max_le (by linarith) (min_le_left _ _)⟩
  | pinf =>
    refine ⟨tc * B, ?_, by rw [abs_of_nonneg hcB]⟩
    simp only [PFloat.mul_val_val, pymin_val_pinf, pymax_val_val, hneg]
    rw [max_eq_right (by linarith)]
  | ninf =>
    refine ⟨-(tc * B), ?_, by rw [abs_neg, abs_of_nonneg hcB]⟩
    simp only [PFloat.mul_val_val, pymin_val_ninf, pymax_val_ninf, hneg]

/-- Claim C3 counterexample: the cap bounds fail for a policy whose cap
percentage is negative — `_cap` windows with `abs(pct)`, so a policy with
`line_cap_pct = -0.09` still lets a $9,000 bedroom item through while the
claim's bound `line_cap_pct × max(base, 1)` is the negative −$45,000. -/
theorem C3_negative_cap_counterexample :
    ∃ rows m, run { beds := .num 4 } [{ sale_price := .num 500000, beds := .num 3 }]
        { line_cap_pct := -0.09 } defaultCosts = .ok (rows, m) ∧
      ∃ r ∈ rows, r.base = .val 500000 ∧
        ∃ it ∈ r.items, ∃ q, it.2 = .val q ∧
          ¬(|q| ≤ (-0.09 : ℚ) * max (500000 : ℚ) 1.0) := by
  have hbed : bedrooms { beds := .num 4 }
      { sale_price := .num 500000, beds := .num 3 } defaultCosts = .val 9000 := by
    simp [bedrooms, num, defaultCosts]
    norm_num
  have hlb : pymax (priceOr0 { sale_price := .num 500000, beds := .num 3 })
      (.val 1.0) = .val 500000 := by
    rw [show priceOr0 { sale_price := .num 500000, beds := .num 3 } = .val 500000
      from rfl, pymax_val_val, max_eq_left (by norm_num)]
  have hcap : capLine (.val 9000) (.val 500000) (-0.09 : ℚ) = .val 9000 := by
    rw [capLine_val_val]
    norm_num [min_def, max_def, abs]
  refine ⟨_, _, rfl, _, List.mem_singleton.mpr rfl, rfl, ("Bedrooms", .val 9000),
    ?_, 9000, rfl, by norm_num⟩
  simp only [runRow, rawAdjustments, List.map_cons, List.map_nil, hlb]
  rw [hbed]
  simp only [show ({ line_cap_pct := -0.09 } : AdjustmentPolicy).line_cap_pct
    = (-0.09 : ℚ) from rfl, hcap]
  simp

/-- Claim C3 as amended: for nonnegative cap percentages and a comparable
whose sale price is not NaN, every capped line item lies within
`line_cap_pct × max(base, 1)` and the capped net adjustment within
`total_cap_pct × max(base, 1)`. -/
theorem C3_caps_hold (subject : Record) (comps : List Record)
    (policy : AdjustmentPolicy) (costs : CostAssumptions) (iv : PFloat)
    (comp : Record) (b : ℚ) (hl : 0 ≤ policy.line_cap_pct)
    (ht : 0 ≤ policy.total_cap_pct) (hb : priceOr0 comp = .val b) :
    (∀ it ∈ (runRow subject comps policy costs iv comp).items,
      ∃ q, it.2 = .val q ∧ |q| ≤ policy.line_cap_pct * max b 1.0)
    ∧ ∃ qn, (runRow subject comps policy costs iv comp).net = .val qn ∧
        |qn| ≤ policy.total_cap_pct * max b 1.0 := by
  have hBnn : (0 : ℚ) ≤ max b 1.0 := le_trans (by norm_num) (le_max_right b 1.0)
  have hlb : pymax (priceOr0 comp) (.val 1.0) = .val (max b 1.0) := by
    rw [hb, pymax_val_val]
  constructor
  · intro it hit
    simp only [runRow, hlb] at hit
    obtain ⟨p, _, rfl⟩ := List.mem_map.mp hit
    exact capLine_bounds p.2 (max b 1.0) policy.line_cap_pct hl hBnn
  · simp only [runRow, hlb]
    exact net_clamp_bounds _ (max b 1.0) policy.total_cap_pct ht hBnn

/-- Witness for C3's amended theorem on a concrete comparable. -/
theorem C3_caps_hold_witness :
    (∀ it ∈ (runRow ({} : Record) [] defaultPolicy defaultCosts .nan
        { sale_price := .num 100 }).items,
      ∃ q, it.2 = .val q ∧ |q| ≤ defaultPolicy.line_cap_pct * max (100 : ℚ) 1.0)
    ∧ ∃ qn, (runRow ({} : Record) [] defaultPolicy defaultCosts .nan
        { sale_price := .num 100 }).net = .val qn ∧
        |qn| ≤ defaultPolicy.total_cap_pct * max (100 : ℚ) 1.0 :=
  C3_caps_hold {} [] defaultPolicy defaultCosts .nan { sale_price := .num 100 }
    100 (by norm_num [defaultPolicy]) (by norm_num [defaultPolicy]) rfl

/-- Claim C9 counterexample: a comparable with sale price 0 does not get a
zero cap window — the engine floors the capping base at 1.0, so the window is
±`line_cap_pct` (±$0.09 by default) and a $9,000 bedroom delta survives as a
line item of exactly $0.09, not 0. -/
theorem C9_zero_price_counterexample :
    ∃ rows m, run { beds := .num 4 } [{ sale_price := .num 0, beds := .num 3 }]
        defaultPolicy defaultCosts = .ok (rows, m) ∧
      ∃ r ∈ rows, r.base = .val 0 ∧
        ∃ it ∈ r.items, it.1 = "Bedrooms" ∧ it.2 = .val 0.09 ∧ it.2 ≠ .val 0 := by
  have hbed : bedrooms { beds := .num 4 }
      { sale_price := .num 0, beds := .num 3 } defaultCosts = .val 9000 := by
    simp [bedrooms, num, defaultCosts]
    norm_num
  have hlb : pymax (priceOr0 { sale_price := .num 0, beds := .num 3 })
      (.val 1.0) = .val 1.0 := by
    rw [show priceOr0 { sale_price := .num 0, beds := .num 3 } = .val 0 from rfl,
      pymax_val_val, max_eq_right (by norm_num)]
  have hcap : capLine (.val 9000) (.val 1.0) (0.09 : ℚ) = .val 0.09 := by
    rw [capLine_val_val]
    norm_num [min_def, max_def, abs]
  refine ⟨_, _, rfl, _, List.mem_singleton.mpr rfl, rfl, ("Bedrooms", .val 0.09),
    ?_, rfl, rfl, by simp only [ne_eq, PFloat.val.injEq]; norm_num⟩
  simp only [runRow, rawAdjustments, List.map_cons, List.map_nil, hlb]
  rw [hbed]
  simp only [show (defaultPolicy : AdjustmentPolicy).line_cap_pct = (0.09 : ℚ)
    from rfl, hcap]
  simp

/-- Claim C9 as amended: for a comparable whose sale price is zero or
negative the engine floors the capping base at 1.0, so every line item is a
finite value within ±`line_cap_pct` (±$0.09 by default), not exactly 0; the
underlying `_cap` does collapse everything to exactly 0 when handed a zero
base, but the engine never hands it one. -/
theorem C9_zero_base_behavior (subject : Record) (comps : List Record)
    (policy : AdjustmentPolicy) (costs : CostAssumptions) (iv : PFloat)
    (comp : Record) (b : ℚ) (hb : priceOr0 comp = .val b) (hb0 : b ≤ 0)
    (hl : 0 ≤ policy.line_cap_pct) :
    (∀ it ∈ (runRow subject comps policy costs iv comp).items,
      ∃ q, it.2 = .val q ∧ |q| ≤ policy.line_cap_pct)
    ∧ ∀ x pct, capLine x (.val 0) pct = .val 0 := by
  have hlb : pymax (priceOr0 comp) (.val 1.0) = .val 1.0 := by
    rw [hb, pymax_val_val, max_eq_right (by linarith)]
  constructor
  · intro it hit
    simp only [runRow, hlb] at hit
    obtain ⟨p, _, rfl⟩ := List.mem_map.mp hit
    obtain ⟨q, hq, hqb⟩ := capLine_bounds p.2 1.0 policy.line_cap_pct hl (by norm_num)
    refine ⟨q, hq, ?_⟩
    calc |q| ≤ policy.line_cap_pct * 1.0 := hqb
    _ = policy.line_cap_pct := by norm_num
  · intro x pct
    cases x with
    | nan =>
      rw [capLine_nan_val]
      simp
    | val v =>
      rw [capLine_val_val]
      simp only [mul_zero, neg_zero]
      rw [max_eq_left (min_le_left 0 v)]
    | pinf =>
      rw [capLine_pinf_val]
      simp
    | ninf =>
      rw [capLine_ninf_val]
      simp

/-- Witness for C9's amended theorem on a zero-price comparable. -/
theorem C9_zero_base_behavior_witness :
    (∀ it ∈ (runRow ({} : Record) [] defaultPolicy defaultCosts .nan
        { sale_price := .num 0 }).items,
      ∃ q, it.2 = .val q ∧ |q| ≤ defaultPolicy.line_cap_pct)
    ∧ ∀ x pct, capLine x (.val 0) pct = .val 0 :=
  C9_zero_base_behavior {} [] defaultPolicy defaultCosts .nan
    { sale_price := .num 0 } 0 rfl (by norm_num) (by norm_num [defaultPolicy])

/-- `_cap` of a zero adjustment is exactly zero for a nonnegative base. -/
theorem capLine_zero (B pct : ℚ) (hB : 0 ≤ B) :
    capLine (.val 0) (.val B) pct = .val 0 := by
  have h : 0 ≤ |pct| * B := mul_nonneg (abs_nonneg pct) hB
  rw [capLine_val_val, min_eq_right h, max_eq_right (by linarith)]

/-- A comparable carrying only a sale price, against an all-missing subject,
keeps its price: every rule contributes zero, the caps keep zero, and the
adjusted price equals the base. -/
theorem runRow_bare_price_adjusted (comps : List Record)
    (policy : AdjustmentPolicy) (costs : CostAssumptions) (q b r : ℚ)
    (ht : 0 ≤ policy.total_cap_pct) (hmp : market_psf comps = .val r) :
    (runRow ({} : Record) comps policy costs (.val q)
      { sale_price := .num b }).adjusted = .val b := by
  have hB : (0 : ℚ) ≤ max b 1.0 := le_trans (by norm_num) (le_max_right b 1.0)
  have h01 := sale_date_missing_zero {} { sale_price := .num b } costs (.val q) b rfl rfl
  have h02 := hoa_fee_missing_zero {} { sale_price := .num b } costs (Or.inl rfl)
  have h03 := location_missing_zero {} { sale_price := .num b } costs (.val q) b
    rfl rfl rfl rfl rfl rfl rfl rfl rfl rfl
  have h04 := lot_size_missing_zero {} { sale_price := .num b } costs (Or.inl rfl)
  have h05 := lot_features_fencing_missing_zero {} { sale_price := .num b } costs
    rfl rfl rfl rfl
  have h06 := age_year_built_missing_zero {} { sale_price := .num b } costs (Or.inl rfl)
  have h07 := style_missing_zero {} { sale_price := .num b } costs rfl rfl
  have h08 := construction_missing_zero {} { sale_price := .num b } costs rfl rfl
  have h09 := foundation_missing_zero {} { sale_price := .num b } costs rfl rfl
  have h10 := roof_missing_zero {} { sale_price := .num b } costs rfl rfl
  have h11 := gla_missing_zero {} { sale_price := .num b } comps costs r hmp (Or.inl rfl)
  have h12 := above_grade_missing_zero {} { sale_price := .num b } costs (Or.inl rfl)
  have h13 := below_grade_missing_zero {} { sale_price := .num b } costs (Or.inl rfl)
  have h14 := bedrooms_missing_zero {} { sale_price := .num b } costs (Or.inl rfl)
  have h15 := bathrooms_both_missing_zero {} { sale_price := .num b } costs rfl rfl
  have h16 := stories_missing_zero {} { sale_price := .num b } costs (Or.inl rfl)
  have h17 := quality_missing_zero {} { sale_price := .num b } costs q rfl rfl
  have h18 := condition_missing_zero {} { sale_price := .num b } costs q rfl rfl
  have h19 := flooring_both_missing_zero {} { sale_price := .num b } costs rfl rfl
  have h20 := interior_features_both_missing_zero {} { sale_price := .num b } costs rfl rfl
  have h21 := fireplace_both_missing_zero {} { sale_price := .num b } costs rfl rfl rfl rfl
  have h22 := cooling_both_missing_zero {} { sale_price := .num b } costs rfl rfl
  have h23 := heating_both_missing_zero {} { sale_price := .num b } costs rfl rfl
  have h24 := garage_parking_both_missing_zero {} { sale_price := .num b } costs rfl rfl
  have h25 := porch_deck_patio_both_missing_zero {} { sale_price := .num b } costs rfl rfl
  have h26 := energy_utilities_both_missing_zero {} { sale_price := .num b } costs
    rfl rfl rfl rfl
  have hlb : pymax (priceOr0 { sale_price := .num b }) (.val 1.0) = .val (max b 1.0) := by
    rw [show priceOr0 { sale_price := .num b } = .val b from rfl, pymax_val_val]
  have hcz : capLine (.val 0) (.val (max b 1.0)) policy.line_cap_pct = .val 0 :=
    capLine_zero _ _ hB
  have hmin : min (policy.total_cap_pct * max b 1.0) 0 = 0 :=
    min_eq_right (mul_nonneg ht hB)
  have hmax : max (-policy.total_cap_pct * max b 1.0) (0 : ℚ) = 0 := by
    have hm : -policy.total_cap_pct * max b 1.0 = -(policy.total_cap_pct * max b 1.0) := by
      ring
    rw [hm]
    exact max_eq_right (by linarith [mul_nonneg ht hB])
  simp only [runRow, rawAdjustments, hlb, h01, h02, h03, h04, h05, h06, h07, h08,
    h09, h10, h11, h12, h13, h14, h15, h16, h17, h18, h19, h20, h21, h22, h23,
    h24, h25, h26, external_market, exemptions, hcz, List.map_cons, List.map_nil,
    List.foldl_cons, List.foldl_nil, PFloat.add_val_val, PFloat.mul_val_val,
    pymin_val_val, pymax_val_val, add_zero, zero_add, hmin, hmax]
  rw [show priceOr0 { sale_price := .num b } = .val b from rfl, PFloat.add_val_val,
    add_zero]

/-- Claim C6 counterexample: with three comparables one of which has a NaN
sale price, that row's adjusted price is NaN; `pd.Series.median` silently
skips it, so the indicated value is the average of the two remaining prices
($550,000) even though the number of comparables is odd — it is not the
middle value of the adjusted-price column (it is not even an element of it). -/
theorem C6_nan_row_counterexample :
    ∃ rows m, run ({} : Record)
        [{ sale_price := .nan }, { sale_price := .num 500000 },
         { sale_price := .num 600000 }] defaultPolicy defaultCosts = .ok (rows, m) ∧
      rows.length = 3 ∧ m = .val 550000 ∧
      rows.map (fun r => r.adjusted) = [.nan, .val 500000, .val 600000] ∧
      m ∉ rows.map (fun r => r.adjusted) := by
  have hiv : nanmedianNum
      (([{ sale_price := .nan }, { sale_price := .num 500000 },
        { sale_price := .num 600000 }] : List Record).map (fun c => c.sale_price)) =
      .val 550000 := by
    simp [nanmedianNum, qsort, medianOfSorted, List.insertionSort, List.orderedInsert]
    norm_num
  have hnan : ∀ comps iv, (runRow ({} : Record) comps defaultPolicy defaultCosts iv
      { sale_price := .nan }).adjusted = .nan := by
    intro comps iv
    simp [runRow, show priceOr0 { sale_price := .nan } = .nan from rfl]
  have hmp6 : market_psf
      [({ sale_price := PNum.nan } : Record), { sale_price := PNum.num 500000 },
       { sale_price := PNum.num 600000 }] = .val 0 := rfl
  have hr5 : (runRow ({} : Record)
      [({ sale_price := PNum.nan } : Record), { sale_price := PNum.num 500000 },
       { sale_price := PNum.num 600000 }] defaultPolicy defaultCosts
      (.val 550000) { sale_price := .num 500000 }).adjusted = .val 500000 :=
    runRow_bare_price_adjusted _ defaultPolicy defaultCosts
      550000 500000 0 (by norm_num [defaultPolicy]) hmp6
  have hr6 : (runRow ({} : Record)
      [({ sale_price := PNum.nan } : Record), { sale_price := PNum.num 500000 },
       { sale_price := PNum.num 600000 }] defaultPolicy defaultCosts
      (.val 550000) { sale_price := .num 600000 }).adjusted = .val 600000 :=
    runRow_bare_price_adjusted _ defaultPolicy defaultCosts
      550000 600000 0 (by norm_num [defaultPolicy]) hmp6
  have hm : seriesMedian [PFloat.nan, .val 500000, .val 600000] = .val 550000 := by
    simp [seriesMedian, extractVals, qsort, medianOfSorted, List.insertionSort,
      List.orderedInsert]
    norm_num
  refine ⟨_, _, rfl, by simp, ?_, ?_, ?_⟩
  · rw [hiv]
    simp only [List.map_cons, List.map_nil]
    rw [hnan, hr5, hr6, hm]
  · rw [hiv]
    simp only [List.map_cons, List.map_nil]
    rw [hnan, hr5, hr6]
  · rw [hiv]
    simp only [List.map_cons, List.map_nil]
    rw [hnan, hr5, hr6, hm]
    simp only [List.mem_cons, List.not_mem_nil, or_false, not_or]
    refine ⟨by simp, ?_, ?_⟩ <;> simp only [ne_eq, PFloat.val.injEq] <;> norm_num

theorem priceOr0_val (c : Record) (h : c.sale_price ≠ PNum.nan) :
    ∃ b, priceOr0 c = .val b := by
  cases hc : c.sale_price with
  | pnone => exact ⟨0, by simp [priceOr0, hc]⟩
  | nan => exact absurd hc h
  | num q => exact ⟨q, by simp [priceOr0, hc]⟩

/-- The net-adjustment clamp over a finite line base always yields a value. -/
theorem net_clamp_total (x : PFloat) (B tc : ℚ) :
    ∃ q, pymax ((PFloat.val (-tc)).mul (.val B))
      (pymin ((PFloat.val tc).mul (.val B)) x) = .val q := by
  cases x with
  | nan => exact ⟨max (-(tc * B)) (tc * B), by simp [neg_mul]⟩
  | val v => exact ⟨max (-(tc * B)) (min (tc * B) v), by simp [neg_mul]⟩
  | pinf => exact ⟨max (-(tc * B)) (tc * B), by simp [neg_mul]⟩
  | ninf => exact ⟨-(tc * B), by simp [neg_mul]⟩

theorem add_clamp_val (b : ℚ) (x : PFloat) (B tc : ℚ) :
    ∃ a, (PFloat.val b).add (pymax ((PFloat.val (-tc)).mul (.val B))
      (pymin ((PFloat.val tc).mul (.val B)) x)) = .val a := by
  obtain ⟨q, hq⟩ := net_clamp_total x B tc
  exact ⟨b + q, by rw [hq]; rfl⟩

/-- A row over a comparable with a non-NaN sale price has a finite adjusted
price. -/
theorem runRow_adjusted_val (subject : Record) (comps : List Record)
    (policy : AdjustmentPolicy) (costs : CostAssumptions) (iv : PFloat)
    (comp : Record) (b : ℚ) (hb : priceOr0 comp = .val b) :
    ∃ a, (runRow subject comps policy costs iv comp).adjusted = .val a := by
  have hlb : pymax (priceOr0 comp) (.val 1.0) = .val (max b 1.0) := by
    rw [hb, pymax_val_val]
  simp only [runRow]
  rw [hlb, hb]
  apply add_clamp_val

theorem allVal_eq_map (l : List PFloat) (h : ∀ x ∈ l, ∃ q, x = PFloat.val q) :
    l = (extractVals l).map .val := by
  induction l with
  | nil => rfl
  | cons x t ih =>
    obtain ⟨q, rfl⟩ := h x (List.mem_cons_self x t)
    have ht := ih (fun y hy => h y (List.mem_cons_of_mem _ hy))
    simp only [extractVals, List.filterMap_cons, List.map_cons]
    exact congrArg (PFloat.val q :: ·) ht

theorem extractVals_map_val (qs : List ℚ) : extractVals (qs.map .val) = qs := by
  induction qs with
  | nil => rfl
  | cons q t ih => simp only [extractVals, List.map_cons, List.filterMap_cons] at ih ⊢; rw [ih]

theorem seriesMedian_map_val (qs : List ℚ) (h : qs ≠ []) :
    seriesMedian (qs.map .val) = .val (medianOfSorted (qsort qs)) := by
  have he : (qs.isEmpty) = false := by cases qs with | nil => exact absurd rfl h | cons a t => rfl
  simp only [seriesMedian, extractVals_map_val, he, Bool.false_eq_true, if_false]

/-- Modelled from the claim's words, as the comparison definition for this
refinement: sort the adjusted-price column; for an odd number of entries take
the middle value, for an even number the average of the two middle values. -/
def claimMedian (l : List ℚ) : ℚ :=
  let sorted := l.insertionSort (fun a b => a ≤ b)
  if l.length % 2 = 1 then sorted.getD (l.length / 2) 0
  else (sorted.getD (l.length / 2 - 1) 0 + sorted.getD (l.length / 2) 0) / 2

theorem medianOfSorted_qsort_eq_claim (l : List ℚ) :
    medianOfSorted (qsort l) = claimMedian l := by
  have hlen : (qsort l).length = l.length := (List.perm_insertionSort _ l).length_eq
  simp only [medianOfSorted]
  rw [hlen]
  simp only [claimMedian, qsort]

/-- Claim C6 as amended: for a non-empty comparable collection in which no
comparable carries a NaN sale price, the run succeeds and its indicated value
is exactly the claim's median — middle value for an odd count, average of the
two middle values for an even count — of the adjusted-price column, whose
length equals the number of comparables.  (A NaN sale price makes that row's
adjusted price NaN, and the pandas median then skips it, as the
counterexample shows.) -/
theorem C6_indicated_value_is_median (subject : Record) (comps : List Record)
    (policy : AdjustmentPolicy) (costs : CostAssumptions) (hne : comps ≠ [])
    (hnn : ∀ c ∈ comps, c.sale_price ≠ PNum.nan) :
    ∃ rows qs, run subject comps policy costs = .ok (rows, .val (claimMedian qs))
      ∧ rows.map (fun r => r.adjusted) = qs.map PFloat.val
      ∧ qs.length = comps.length := by
  obtain ⟨c, cs, rfl⟩ : ∃ c cs, comps = c :: cs := by
    cases comps with
    | nil => exact absurd rfl hne
    | cons c cs => exact ⟨c, cs, rfl⟩
  set iv := nanmedianNum ((c :: cs).map (fun x => x.sale_price)) with hivdef
  set rows := (c :: cs).map (runRow subject (c :: cs) policy costs iv) with hrowsdef
  have hrun : run subject (c :: cs) policy costs =
      .ok (rows, seriesMedian (rows.map (fun r => r.adjusted))) := rfl
  have hall : ∀ x ∈ rows.map (fun r => r.adjusted), ∃ qv, x = PFloat.val qv := by
    intro x hx
    obtain ⟨r, hr, rfl⟩ := List.mem_map.mp hx
    rw [hrowsdef] at hr
    obtain ⟨cc, hcc, rfl⟩ := List.mem_map.mp hr
    obtain ⟨bb, hbb⟩ := priceOr0_val cc (hnn cc hcc)
    obtain ⟨a, ha⟩ := runRow_adjusted_val subject (c :: cs) policy costs iv cc bb hbb
    exact ⟨a, ha⟩
  have hcol : rows.map (fun r => r.adjusted) =
      (extractVals (rows.map (fun r => r.adjusted))).map PFloat.val :=
    allVal_eq_map _ hall
  have hlen1 : rows.length = (c :: cs).length := by
    rw [hrowsdef]
    exact List.length_map _ _
  have hlen2 : (extractVals (rows.map (fun r => r.adjusted))).length = rows.length := by
    have := congrArg List.length hcol
    simp only [List.length_map] at this
    exact this.symm
  have hqsne : extractVals (rows.map (fun r => r.adjusted)) ≠ [] := by
    intro h0
    rw [h0] at hlen2
    rw [hrowsdef] at hlen2
    simp at hlen2
  refine ⟨rows, extractVals (rows.map (fun r => r.adjusted)), ?_, hcol, ?_⟩
  · rw [hrun]
    rw [show seriesMedian (rows.map (fun r => r.adjusted)) =
        .val (claimMedian (extractVals (rows.map (fun r => r.adjusted)))) from ?_]
    · conv_lhs => rw [hcol]
      rw [seriesMedian_map_val _ hqsne, medianOfSorted_qsort_eq_claim]
  · rw [hlen2, hlen1]

/-- Witness for C6's amended theorem on two price-only comparables. -/
theorem C6_indicated_value_is_median_witness :
    ∃ rows qs, run ({} : Record)
        [{ sale_price := PNum.num 500000 }, { sale_price := PNum.num 600000 }]
        defaultPolicy defaultCosts = .ok (rows, .val (claimMedian qs))
      ∧ rows.map (fun r => r.adjusted) = qs.map PFloat.val
      ∧ qs.length = ([{ sale_price := PNum.num 500000 },
          { sale_price := PNum.num 600000 }] : List Record).length :=
  C6_indicated_value_is_median {} _ defaultPolicy defaultCosts (by simp)
    (by
      intro c hc
      simp only [List.mem_cons, List.not_mem_nil, or_false] at hc
      rcases hc with rfl | rfl <;> simp)
